import Mathlib

/-
Verification development for the sloplint scanner (dannote/sloplint).

The scanner classifies source-code comments and a small set of structural
error-handling shapes as low-quality patterns.  The embedding below follows
the repository sources:
  - src/rules/comments.ts   (current 7-rule module, src/unnamed/part_000)
  - src/rules/error-handling.ts
  - src/rules/index.ts
  - src/scanner.ts
  - src/languages.ts        (bundled build, src/unnamed/part_001)
Comment texts are modelled as `List Char`; the JavaScript regular
expressions are hand-compiled into an executable pattern language `Pat`
whose matcher enumerates all possible match remainders (backtracking
semantics).  The external tree-sitter / ast-grep engine is out of scope in
the repository design; syntax trees are taken as inputs (`STree`), and its
`findAll`-by-kind is modelled as a preorder-traversal filter, matching the
documented top-to-bottom, left-to-right enumeration order.
-/

namespace Sloplint

/-- The apostrophe character, used to build comment-pattern literals. -/
def apos : Char := Char.ofNat 39

/-- String form of the apostrophe. -/
def aposS : String := apos.toString

/-- JavaScript whitespace class membership restricted to its ASCII members
(space, tab, newline, carriage return, vertical tab, form feed). -/
def isWsChar (c : Char) : Bool :=
  c == ' ' || c == '\t' || c == '\n' || c == '\r' ||
  c == Char.ofNat 11 || c == Char.ofNat 12

/-- JavaScript word-character class: ASCII letters, digits and underscore. -/
def wordChar (c : Char) : Bool :=
  (('a' ≤ c && c ≤ 'z') || ('A' ≤ c && c ≤ 'Z') ||
   ('0' ≤ c && c ≤ '9') || c == '_')

/-- Character comparison, optionally case-insensitive (ASCII folding, as the
JavaScript `i` flag behaves on the pattern alphabets used here). -/
def charEq (ci : Bool) (a b : Char) : Bool :=
  if ci then a.toLower == b.toLower else a == b

/-- Does `s` literally start the text `t` (under the given case mode)? -/
def litMatches (ci : Bool) : List Char → List Char → Bool
  | [], _ => true
  | _ :: _, [] => false
  | a :: as, b :: bs => charEq ci a b && litMatches ci as bs

/-- Remove leading whitespace (one side of JavaScript `String.trim`). -/
def dropWs (t : List Char) : List Char := t.dropWhile (fun c => isWsChar c)

/-- JavaScript `String.trim`: strip whitespace from both ends. -/
def trimList (t : List Char) : List Char :=
  (dropWs ((dropWs t.reverse).reverse))

/-- JavaScript `text.split("\n")[0]`: the prefix before the first newline. -/
def firstLine (t : List Char) : List Char := t.takeWhile (fun c => c != '\n')

/-- Hand-compiled regular-expression fragments.  `lit` is a literal run,
`among cs mn mx` is a character class with a repetition count between `mn`
and `mx` (`none` = unbounded), the `ws`/`digit`/`wordMany1` constructors are
the classes `\s*`, `\s+`, `\s`, `\d`, `\w+`. -/
inductive Pat : Type
  | fail : Pat
  | eps : Pat
  | lit : List Char → Pat
  | seq : Pat → Pat → Pat
  | alt : Pat → Pat → Pat
  | opt : Pat → Pat
  | wsMany0 : Pat
  | wsMany1 : Pat
  | wsOne : Pat
  | digit : Pat
  | wordMany1 : Pat
  | among : List Char → Nat → Option Nat → Pat

/-- All remainders `t.drop k` for `lo ≤ k ≤ hi` (backtracking split points). -/
def splitsRange (t : List Char) (lo hi : Nat) : List (List Char) :=
  if lo ≤ hi then (List.range (hi + 1 - lo)).map (fun j => t.drop (lo + j)) else []

/-- Length of the maximal prefix of `t` whose characters satisfy `p`. -/
def runLen (p : Char → Bool) (t : List Char) : Nat := (t.takeWhile p).length

/-- All possible remainders after matching pattern `p` at the start of `t`
(the nondeterministic semantics of a backtracking regex engine). -/
def matchEnds (ci : Bool) : Pat → List Char → List (List Char)
  | .fail, _ => []
  | .eps, t => [t]
  | .lit s, t => if litMatches ci s t then [t.drop s.length] else []
  | .seq a b, t => (matchEnds ci a t).flatMap (fun r => matchEnds ci b r)
  | .alt a b, t => matchEnds ci a t ++ matchEnds ci b t
  | .opt a, t => t :: matchEnds ci a t
  | .wsOne, t =>
    match t with
    | c :: r => if isWsChar c then [r] else []
    | [] => []
  | .digit, t =>
    match t with
    | c :: r => if c.isDigit then [r] else []
    | [] => []
  | .wsMany0, t => splitsRange t 0 (runLen isWsChar t)
  | .wsMany1, t => splitsRange t 1 (runLen isWsChar t)
  | .wordMany1, t => splitsRange t 1 (runLen wordChar t)
  | .among cs mn mx, t =>
    let r := runLen (fun c => cs.contains c) t
    splitsRange t mn (min (mx.getD r) r)

/-- JavaScript `pattern.test(text)` for a `^`-anchored pattern. -/
def patTest (ci : Bool) (p : Pat) (t : List Char) : Bool :=
  !(matchEnds ci p t).isEmpty

/-- JavaScript `pattern.test(text)` for an unanchored pattern: the pattern
may match starting at any position of the text. -/
def patSearch (ci : Bool) (p : Pat) (t : List Char) : Bool :=
  (List.range (t.length + 1)).any (fun i => !(matchEnds ci p (t.drop i)).isEmpty)

/-- Literal pattern from a string. -/
def plit (s : String) : Pat := Pat.lit s.data

/-- Sequence of a list of patterns. -/
def pseq (ps : List Pat) : Pat := ps.foldr Pat.seq Pat.eps

/-- Alternation over a list of patterns (empty list never matches). -/
def palt (ps : List Pat) : Pat := ps.foldr Pat.alt Pat.fail

/-- Literal with an optional trailing `s` (the regex idiom `words?`). -/
def optS (s : String) : Pat := Pat.seq (plit s) (Pat.opt (plit "s"))

/-- Comment-delimiter prefix shared by the classifier patterns:
the regex fragment `(?:\/\/|#|\/\*\*?)`. -/
def commentDelim : Pat :=
  palt [plit "//", plit "#", Pat.seq (plit "/*") (Pat.opt (plit "*"))]

/-- Delimiter prefix used by the divider patterns: `(?:\/\/|#)`. -/
def dividerDelim : Pat := palt [plit "//", plit "#"]

/-- Hand-compiled `OBVIOUS_VERBS` regex from src/rules/comments.ts: the
comment delimiter, optional whitespace, one of the listed imperative verb
openers, then one whitespace character.  Matched case-insensitively. -/
def OBVIOUS_VERBS : Pat :=
  pseq [commentDelim, Pat.wsMany0,
    palt [plit "initialize", plit "create",
      pseq [plit "set", Pat.opt Pat.wsOne, plit "up"],
      plit "handle", plit "process",
      pseq [plit "check", Pat.wsOne, palt [plit "if", plit "whether"]],
      plit "validate", plit "update", plit "return",
      palt [plit "get", plit "gets", plit "get the"],
      plit "store", plit "add", plit "increment", plit "decrement",
      plit "define", plit "declare", plit "assign", plit "call", plit "invoke",
      pseq [plit "loop", Pat.wsOne, palt [plit "through", plit "over"]],
      pseq [plit "iterate", Pat.wsOne, palt [plit "through", plit "over"]],
      plit "import", plit "export", plit "render", plit "fetch", plit "send",
      plit "remove", plit "delete", plit "destroy", plit "free", plit "reset",
      plit "clear", plit "toggle", plit "convert", plit "parse", plit "format",
      plit "calculate", plit "compute", plit "extract", plit "merge",
      plit "sort", plit "filter", plit "map", plit "transform", plit "append",
      plit "prepend", plit "push", plit "pop", plit "insert", plit "set the",
      pseq [plit "set", Pat.wsOne, Pat.wordMany1, Pat.wsOne, plit "to"],
      plit "allocate", plit "malloc", plit "realloc"],
    Pat.wsOne]

/-- Hand-compiled `NARRATOR_PATTERN` regex: delimiter, `this`, a
construct-kind noun, then a description verb phrase (case-insensitive). -/
def NARRATOR_PATTERN : Pat :=
  pseq [commentDelim, Pat.wsMany0, plit "this", Pat.wsMany1,
    palt [plit "function", plit "method", plit "class", plit "component",
      plit "hook", plit "module", plit "handler", plit "helper",
      plit "utility", plit "service", plit "middleware", plit "guard",
      plit "interceptor", plit "decorator", plit "factory", plit "provider",
      plit "controller", plit "resolver", plit "validator", plit "pipe",
      plit "filter", plit "struct", plit "enum", plit "trait", plit "impl",
      plit "macro", plit "typedef", plit "interface"],
    Pat.wsMany1,
    palt [pseq [plit "is", Pat.wsMany1, plit "responsible", Pat.wsMany1, plit "for"],
      pseq [plit "is", Pat.wsMany1, plit "used", Pat.wsMany1, plit "to"],
      plit "will", plit "handles", plit "creates", plit "initializes",
      pseq [plit "sets", Pat.wsMany1, plit "up"],
      plit "processes", plit "validates", plit "returns", plit "manages",
      plit "provides", plit "defines", plit "takes", plit "accepts",
      plit "receives", plit "implements", plit "extends", plit "overrides",
      plit "wraps", plit "delegates", plit "dispatches", plit "emits",
      plit "triggers", plit "invokes", plit "calls", plit "renders",
      plit "fetches", plit "sends", plit "removes", plit "deletes",
      plit "frees", plit "updates", plit "checks", plit "ensures",
      plit "converts", plit "parses", plit "formats", plit "calculates",
      plit "computes", plit "extracts", plit "merges", plit "sorts",
      plit "filters", plit "maps", plit "transforms"]]

/-- Hand-compiled `STEP_PATTERN` regex: delimiter, `step`, whitespace, a
digit (case-insensitive). -/
def STEP_PATTERN : Pat :=
  pseq [commentDelim, Pat.wsMany0, plit "step", Pat.wsMany1, Pat.digit]

/-- Hand-compiled `PLACEHOLDER_PATTERN` regex: delimiter then an
ellipsis/elision phrase (case-insensitive). -/
def PLACEHOLDER_PATTERN : Pat :=
  pseq [commentDelim, Pat.wsMany0,
    palt [pseq [palt [plit "...", plit "…"], Pat.wsMany0,
        palt [plit "rest of", plit "more", plit "remaining",
          plit "implementation", plit "logic", plit "code", plit "here",
          plit "functionality", plit "similarly", plit "and so on",
          plit "etc", plit "as above"]],
      pseq [palt [plit "omitted", plit "truncated"], Pat.wsMany1,
        plit "for", Pat.wsMany1, plit "brevity"],
      plit "implementation details omitted",
      pseq [plit "repeat ", palt [plit "for each", plit "as needed"]],
      pseq [plit "handle ", palt [plit "other", plit "remaining"],
        plit " cases similarly"],
      plit "similar for other cases"]]

/-- Hand-compiled `APOLOGETIC_PATTERN` regex: delimiter then a
hedging/apology phrase (case-insensitive). -/
def APOLOGETIC_PATTERN : Pat :=
  pseq [commentDelim, Pat.wsMany0,
    palt [pseq [plit "sorry", Pat.opt (plit ","), plit " this is a ",
        Pat.opt (plit "quick "), plit "hack"],
      pseq [palt [plit "quick", plit "ugly", plit "dirty", plit "nasty"],
        plit " hack"],
      pseq [palt [plit "quick", plit "dirty", plit "naive"], plit " solution"],
      plit "not the best way but works",
      plit "I know this is bad",
      pseq [palt [plit "temporary", plit "temp"], plit " ",
        palt [plit "fix", plit "workaround", plit "solution",
          plit "implementation", plit "code"]],
      pseq [palt [plit "fix", plit "refactor", plit "implement", plit "do",
          plit "clean up"],
        plit " ", Pat.opt (plit "this "), plit "later"],
      pseq [palt [plit "good", plit "fine", plit "okay", plit "ok",
          plit "simple", plit "works", plit "good enough"],
        plit " for now"],
      pseq [plit "simplified ",
        palt [plit "version", plit "implementation", plit "logic"]],
      pseq [palt [plit "basic", plit "minimal", plit "naive"],
        plit " approach"],
      plit "just a placeholder"]]

/-- Hand-compiled `AI_SPECIFIC_PATTERN` regex: delimiter then an
unfinished-assistant phrase (case-insensitive). -/
def AI_SPECIFIC_PATTERN : Pat :=
  pseq [commentDelim, Pat.wsMany0,
    palt [pseq [plit "As an AI", Pat.opt (plit ","), plit " I cannot"],
      pseq [Pat.lit ("I".data ++ [apos] ++ "ll leave this for you to ".data),
        palt [plit "implement", plit "complete", plit "finish"]],
      Pat.lit ("You".data ++ [apos] ++ "ll need to add your own".data),
      pseq [plit "Replace this with your ",
        palt [plit "actual", plit "real", plit "own"],
        plit " implementation"],
      pseq [plit "Add your ", palt [plit "code", plit "logic"], plit " here"],
      pseq [plit "Insert your ",
        palt [plit "logic", plit "code", plit "handling"], plit " here"],
      pseq [plit "Customize ",
        palt [plit "as needed", plit "according to your needs"]],
      pseq [plit "Modify ", palt [plit "according to", plit "based on"],
        plit " your needs"],
      pseq [plit "This is a ",
        palt [plit "simplified", plit "basic", plit "example"], plit " ",
        palt [plit "example", plit "version", plit "implementation"]],
      pseq [plit "In a real application", Pat.opt (plit ","), plit " you ",
        palt [plit "would", plit "should"]],
      pseq [plit "For production", Pat.opt (plit ","), plit " ",
        palt [plit "consider", plit "make sure to"]],
      pseq [plit "In practice", Pat.opt (plit ","), plit " you ",
        palt [plit "should", plit "might want to"]],
      plit "This is just a starting point"]]

/-- First divider regex `^(?:\/\/|#)\s*[-=~#*]{3,}` (case-sensitive). -/
def DIVIDER_PATTERN_1 : Pat :=
  pseq [dividerDelim, Pat.wsMany0, Pat.among ['-', '=', '~', '#', '*'] 3 none]

/-- Second divider regex `^(?:\/\/|#)\s*#{1,3}\s` (the `i` flag is
irrelevant: the pattern has no letters). -/
def DIVIDER_PATTERN_2 : Pat :=
  pseq [dividerDelim, Pat.wsMany0, Pat.among ['#'] 1 (some 3), Pat.wsOne]

/-- Third divider regex: `-{2,}`, a section-category word, `-{0,}`
(case-insensitive). -/
def DIVIDER_PATTERN_3 : Pat :=
  pseq [dividerDelim, Pat.wsMany0, Pat.among ['-'] 2 none, Pat.wsMany0,
    palt [optS "helper", optS "util", optS "type", optS "interface",
      optS "constant", optS "export", optS "import", optS "method",
      optS "function", optS "handler", optS "hook", plit "state",
      optS "prop", optS "style", plit "config", plit "setup", plit "init",
      plit "main", plit "private", plit "public", plit "api", optS "route",
      plit "middleware", plit "validation", plit "rendering",
      plit "lifecycle", optS "event", optS "callback", optS "mutation",
      optS "action", optS "getter", optS "selector", optS "reducer",
      optS "effect", optS "subscription", plit "impl", optS "trait",
      optS "struct", optS "enum", optS "test", optS "mod", optS "model",
      optS "macro"],
    Pat.wsMany0, Pat.among ['-'] 0 none]

/-- Boolean test for `OBVIOUS_VERBS.test(text)` (`i` flag). -/
def obviousTest (t : List Char) : Bool := patTest true OBVIOUS_VERBS t

/-- Boolean test for `NARRATOR_PATTERN.test(text)` (`i` flag). -/
def narratorTest (t : List Char) : Bool := patTest true NARRATOR_PATTERN t

/-- Boolean test for `STEP_PATTERN.test(text)` (`i` flag). -/
def stepTest (t : List Char) : Bool := patTest true STEP_PATTERN t

/-- Boolean test for `DIVIDER_PATTERNS.some((p) => p.test(text))`; the first
divider pattern carries no `i` flag, the other two do. -/
def dividerTest (t : List Char) : Bool :=
  patTest false DIVIDER_PATTERN_1 t || patTest true DIVIDER_PATTERN_2 t ||
  patTest true DIVIDER_PATTERN_3 t

/-- Boolean test for `PLACEHOLDER_PATTERN.test(text)` (`i` flag). -/
def placeholderTest (t : List Char) : Bool := patTest true PLACEHOLDER_PATTERN t

/-- Boolean test for `APOLOGETIC_PATTERN.test(text)` (`i` flag). -/
def apologeticTest (t : List Char) : Bool := patTest true APOLOGETIC_PATTERN t

/-- Boolean test for `AI_SPECIFIC_PATTERN.test(text)` (`i` flag). -/
def aiTest (t : List Char) : Bool := patTest true AI_SPECIFIC_PATTERN t

/-- The reserved keeper marker tokens of `KEEPER_PATTERN`
(`\bTODO\b|\bFIXME\b|...|\bCOPYRIGHT\b`, case-sensitive). -/
def keeperTokens : List (List Char) :=
  ["TODO".data, "FIXME".data, "HACK".data, "NOTE".data, "SAFETY".data,
   "WARN".data, "BUG".data, "XXX".data, "PERF".data, "IMPORTANT".data,
   "LICENSE".data, "COPYRIGHT".data]

/-- Does token `tok` occur in `t` at index `i`, case-sensitively and with a
word boundary on both sides (JavaScript `\btok\b`)? -/
def keeperHit (t tok : List Char) (i : Nat) : Bool :=
  litMatches false tok (t.drop i) &&
  (i == 0 || !(wordChar (t.getD (i - 1) ' '))) &&
  !(wordChar (t.getD (i + tok.length) ' '))

/-- Test for `KEEPER_PATTERN` (unanchored): some reserved marker token
occurs word-bounded (and case-sensitively) somewhere in the text. -/
def keeperTest (t : List Char) : Bool :=
  keeperTokens.any (fun tok => (List.range t.length).any (fun i => keeperHit t tok i))

mutual
/-- Shallow model of an ast-grep syntax node: kind, named flag, 0-indexed
start line and column of its range, source text of its span, and labelled
children.  The parser producing these trees is the external collaborator. -/
inductive STree : Type
  | mk : String → Bool → Nat → Nat → List Char → ChildList → STree

/-- Children of a node, each optionally carrying a tree-sitter field label. -/
inductive ChildList : Type
  | nil : ChildList
  | cons : Option String → STree → ChildList → ChildList
end

/-- Build a `ChildList` from a list of labelled children. -/
def clist : List (Option String × STree) → ChildList
  | [] => .nil
  | (l, t) :: r => .cons l t (clist r)

/-- Node kind (`node.kind()`). -/
def STree.kind : STree → String
  | .mk k _ _ _ _ _ => k

/-- Named flag (`node.isNamed()`). -/
def STree.isNamed : STree → Bool
  | .mk _ n _ _ _ _ => n

/-- Start line of the node's range, 0-indexed (`node.range().start.line`). -/
def STree.lineIdx : STree → Nat
  | .mk _ _ l _ _ _ => l

/-- Start column of the node's range, 0-indexed (`node.range().start.column`). -/
def STree.colIdx : STree → Nat
  | .mk _ _ _ c _ _ => c

/-- Source text of the node's span (`node.text()`). -/
def STree.text : STree → List Char
  | .mk _ _ _ _ txt _ => txt

/-- All children of the node, in order (`node.children()`). -/
def STree.childNodes : STree → List STree
  | .mk _ _ _ _ _ ch => childListNodes ch
where
  childListNodes : ChildList → List STree
    | .nil => []
    | .cons _ t rest => t :: childListNodes rest

/-- Child carrying the given tree-sitter field label (`node.field(name)`). -/
def STree.fieldGet : STree → String → Option STree
  | .mk _ _ _ _ _ ch, name => childListField ch name
where
  childListField : ChildList → String → Option STree
    | .nil, _ => none
    | .cons l t rest, name =>
      if l == some name then some t else childListField rest name

mutual
/-- All nodes of the subtree in traversal order: the node itself first, then
the subtrees of its children left to right (top-to-bottom, left-to-right
enumeration, as the rule engine's node enumeration is specified). -/
def STree.preorder : STree → List STree
  | .mk k n l c txt ch => .mk k n l c txt ch :: ChildList.preorderAll ch

/-- Concatenated preorder traversals of a list of children. -/
def ChildList.preorderAll : ChildList → List STree
  | .nil => []
  | .cons _ t rest => STree.preorder t ++ ChildList.preorderAll rest
end

/-- Model of the external `root.findAll({ rule: { kind } })` query: all nodes
of the given kind, in traversal order. -/
def findAllKind (t : STree) (k : String) : List STree :=
  t.preorder.filter (fun n => n.kind == k)

/-- Modelled from the external ast-grep structural pattern
`console.log($$$ARGS)`: a call expression whose callee reads
`console.log`. -/
def isConsoleLogCall (t : STree) : Bool :=
  t.kind == "call_expression" &&
    (match t.fieldGet "function" with
     | some f => f.text == "console.log".data
     | none => false)

/-- Model of `node.findAll("console.log($$$ARGS)")`: the matching call
nodes of the subtree, in traversal order. -/
def STree.findAllConsoleLog (t : STree) : List STree :=
  t.preorder.filter isConsoleLogCall

/-- Language configuration from src/languages.ts: grammar key, comment node
kinds, file extensions, and the tool-directive recognizer (its
case-insensitivity flag paired with the hand-compiled pattern). -/
structure LanguageConfig : Type where
  lang : String
  commentKinds : List String
  extensions : List String
  toolDirectives : Bool × Pat

/-- TypeScript entry of the `LANGUAGES` table. -/
def langTypescript : LanguageConfig :=
  { lang := "TypeScript"
    commentKinds := ["comment"]
    extensions := ["ts", "tsx", "mts", "cts"]
    toolDirectives := (true, palt [plit "eslint", plit "prettier",
      plit "@ts-", plit "istanbul", plit "c8", plit "vitest", plit "jest",
      plit "biome", plit "oxlint"]) }

/-- JavaScript entry of the `LANGUAGES` table. -/
def langJavascript : LanguageConfig :=
  { lang := "JavaScript"
    commentKinds := ["comment"]
    extensions := ["js", "jsx", "mjs", "cjs"]
    toolDirectives := (true, palt [plit "eslint", plit "prettier",
      plit "istanbul", plit "c8", plit "vitest", plit "jest", plit "webpack",
      plit "biome", plit "oxlint"]) }

/-- Python entry of the `LANGUAGES` table (`type:\s*ignore` carries an
inner whitespace gap). -/
def langPython : LanguageConfig :=
  { lang := "python"
    commentKinds := ["comment"]
    extensions := ["py", "pyi"]
    toolDirectives := (true, palt [plit "noqa",
      pseq [plit "type:", Pat.wsMany0, plit "ignore"], plit "pylint",
      plit "mypy", plit "pyright", plit "ruff", plit "fmt", plit "isort"]) }

/-- Go entry of the `LANGUAGES` table. -/
def langGo : LanguageConfig :=
  { lang := "go"
    commentKinds := ["comment"]
    extensions := ["go"]
    toolDirectives := (true, palt [plit "nolint", plit "go:generate",
      plit "go:build", plit "go:embed", plit "gofmt", plit "govet"]) }

/-- Rust entry of the `LANGUAGES` table; its tool-directive recognizer is
case-sensitive (no `i` flag in the source). -/
def langRust : LanguageConfig :=
  { lang := "rust"
    commentKinds := ["line_comment", "block_comment"]
    extensions := ["rs"]
    toolDirectives := (false, palt [plit "clippy", plit "allow", plit "deny",
      plit "forbid", plit "expect", plit "cfg", plit "rustfmt",
      plit "SAFETY", plit "safety"]) }

/-- C entry of the `LANGUAGES` table. -/
def langC : LanguageConfig :=
  { lang := "c"
    commentKinds := ["comment"]
    extensions := ["c", "h"]
    toolDirectives := (true, palt [plit "NOLINT", plit "NOLINTNEXTLINE",
      plit "clang-format", plit "IWYU", plit "pragma"]) }

/-- C++ entry of the `LANGUAGES` table. -/
def langCpp : LanguageConfig :=
  { lang := "cpp"
    commentKinds := ["comment"]
    extensions := ["cpp", "cc", "cxx", "hpp", "hh", "hxx"]
    toolDirectives := (true, palt [plit "NOLINT", plit "NOLINTNEXTLINE",
      plit "clang-format", plit "IWYU", plit "pragma"]) }

/-- Java entry of the `LANGUAGES` table. -/
def langJava : LanguageConfig :=
  { lang := "java"
    commentKinds := ["line_comment", "block_comment"]
    extensions := ["java"]
    toolDirectives := (true, palt [plit "checkstyle",
      plit "SuppressWarnings", plit "PMD", plit "SpotBugs", plit "NOSONAR",
      plit "noinspection"]) }

/-- Ruby entry of the `LANGUAGES` table. -/
def langRuby : LanguageConfig :=
  { lang := "ruby"
    commentKinds := ["comment"]
    extensions := ["rb", "rake"]
    toolDirectives := (true, palt [plit "rubocop", plit "sorbet", plit "sig",
      plit "steep", plit "yard", plit ":nocov:",
      plit "frozen_string_literal"]) }

/-- The `LANGUAGES` registry, in source order. -/
def LANGUAGES : List LanguageConfig :=
  [langTypescript, langJavascript, langPython, langGo, langRust, langC,
   langCpp, langJava, langRuby]

/-- The `AST_RULE_KINDS` table of src/scanner.ts, with the source's
`?? []` fallback for unlisted grammar keys. -/
def AST_RULE_KINDS (lang : String) : List String :=
  if lang == "TypeScript" then ["catch_clause"]
  else if lang == "JavaScript" then ["catch_clause"]
  else if lang == "java" then ["catch_clause"]
  else if lang == "python" then ["except_clause"]
  else if lang == "ruby" then ["rescue"]
  else []

/-- Membership of the node's kind in the language's comment kinds
(`isComment` of src/rules/comments.ts). -/
def isComment (node : STree) (lang : LanguageConfig) : Bool :=
  lang.commentKinds.contains node.kind

/-- Tool-directive suppression (`isToolDirective` of src/rules/comments.ts):
the language's tool-directive recognizer matches somewhere in the text. -/
def isToolDirective (text : List Char) (lang : LanguageConfig) : Bool :=
  patSearch lang.toolDirectives.1 lang.toolDirectives.2 text

/-- Suppression gate (`shouldKeep` of src/rules/comments.ts): a reserved
keeper marker occurs, or the text matches the tool-directive recognizer. -/
def shouldKeep (text : List Char) (lang : LanguageConfig) : Bool :=
  keeperTest text || isToolDirective text lang

/-- Trimmed node text (`commentText` of src/rules/comments.ts). -/
def commentText (node : STree) : List Char := trimList node.text

/-- A classification rule: identifier, message, optional note, optional
language scope, and the check over one node plus the language
configuration.  The source's check returns the rule object itself on a
match and `null` otherwise; a match is modelled as `true`. -/
structure Rule : Type where
  id : String
  message : String
  note : Option String
  languages : Option (List String)
  check : STree → LanguageConfig → Bool

/-- Comment rule `obvious-comment` of src/rules/comments.ts. -/
def obviousComment : Rule :=
  { id := "obvious-comment"
    message := "Obvious comment — remove it, the code should speak for itself"
    note := some ("Comments should explain WHY or document non-obvious constraints, not restate WHAT. If the code isn" ++ aposS ++ "t clear, rename variables or extract a well-named function.")
    languages := none
    check := fun node lang =>
      isComment node lang && !(shouldKeep (commentText node) lang) &&
      obviousTest (commentText node) }

/-- Comment rule `narrator-comment` of src/rules/comments.ts. -/
def narratorComment : Rule :=
  { id := "narrator-comment"
    message := "\"This function...\" comment — let the function name and signature tell the story"
    note := some ("A well-named function doesn" ++ aposS ++ "t need a preamble. If behavior is non-obvious, explain WHY, not WHAT.")
    languages := none
    check := fun node lang =>
      isComment node lang && !(shouldKeep (commentText node) lang) &&
      narratorTest (commentText node) }

/-- Comment rule `step-comment` of src/rules/comments.ts. -/
def stepComment : Rule :=
  { id := "step-comment"
    message := "\"Step N:\" comment — the function is doing too much"
    note := some "Numbered step comments suggest the function should be split. Extract each step into its own well-named function."
    languages := none
    check := fun node lang =>
      isComment node lang && !(shouldKeep (commentText node) lang) &&
      stepTest (commentText node) }

/-- Comment rule `section-divider` of src/rules/comments.ts. -/
def sectionDivider : Rule :=
  { id := "section-divider"
    message := "Section divider comment — extract into separate modules instead"
    note := some ("If your file needs section banners, it" ++ aposS ++ "s probably too long. Split into separate files or modules.")
    languages := none
    check := fun node lang =>
      isComment node lang && !(shouldKeep (commentText node) lang) &&
      dividerTest (commentText node) }

/-- Comment rule `placeholder-comment` of src/rules/comments.ts. -/
def placeholderComment : Rule :=
  { id := "placeholder-comment"
    message := "Placeholder comment — this code is incomplete"
    note := some "Comments like \"... rest of the code\" or \"omitted for brevity\" mean the implementation was never finished."
    languages := none
    check := fun node lang =>
      isComment node lang && !(shouldKeep (commentText node) lang) &&
      placeholderTest (commentText node) }

/-- Comment rule `apologetic-comment` of src/rules/comments.ts. -/
def apologeticComment : Rule :=
  { id := "apologetic-comment"
    message := "Apologetic comment — fix the code instead of apologizing for it"
    note := some "Comments admitting \"this is a hack\" or \"good enough for now\" are a sign the code needs actual improvement, not an apology."
    languages := none
    check := fun node lang =>
      isComment node lang && !(shouldKeep (commentText node) lang) &&
      apologeticTest (commentText node) }

/-- Comment rule `ai-generated-comment` of src/rules/comments.ts. -/
def aiSpecificComment : Rule :=
  { id := "ai-generated-comment"
    message := "AI-generated placeholder — the AI left a note instead of writing the code"
    note := some ("The AI assistant admitted it didn" ++ aposS ++ "t finish the job. Replace the comment with an actual implementation.")
    languages := none
    check := fun node lang =>
      isComment node lang && !(shouldKeep (commentText node) lang) &&
      aiTest (commentText node) }

/-- The `commentRules` list of src/rules/comments.ts, in source order. -/
def commentRules : List Rule :=
  [obviousComment, narratorComment, stepComment, sectionDivider,
   placeholderComment, apologeticComment, aiSpecificComment]

/-- Structural rule `empty-error-handler` for TypeScript/JavaScript
(`emptyCatchTS` of src/rules/error-handling.ts): a catch clause whose body
has zero named children. -/
def emptyCatchTS : Rule :=
  { id := "empty-error-handler"
    message := "Empty catch block silently swallows errors"
    note := some ("At minimum, log the error or add a comment explaining why it" ++ aposS ++ "s safe to ignore.")
    languages := some ["TypeScript", "JavaScript"]
    check := fun node _ =>
      node.kind == "catch_clause" &&
      (match node.fieldGet "body" with
       | none => false
       | some body => (body.childNodes.filter STree.isNamed).length == 0) }

/-- Structural rule `empty-error-handler` for Java (`emptyCatchJava` of
src/rules/error-handling.ts); same check as the TypeScript variant. -/
def emptyCatchJava : Rule :=
  { id := "empty-error-handler"
    message := "Empty catch block silently swallows errors"
    note := some ("At minimum, log the error or add a comment explaining why it" ++ aposS ++ "s safe to ignore.")
    languages := some ["java"]
    check := fun node _ =>
      node.kind == "catch_clause" &&
      (match node.fieldGet "body" with
       | none => false
       | some body => (body.childNodes.filter STree.isNamed).length == 0) }

/-- Structural rule `empty-error-handler` for Python (`bareExceptPython` of
src/rules/error-handling.ts): an except clause with no `identifier` or
`as_pattern` child (a type-less catch-all). -/
def bareExceptPython : Rule :=
  { id := "empty-error-handler"
    message := "Bare except catches everything including KeyboardInterrupt and SystemExit"
    note := some "Use `except Exception:` to avoid catching system-level exceptions."
    languages := some ["python"]
    check := fun node _ =>
      node.kind == "except_clause" &&
      !(node.childNodes.any (fun c =>
          c.kind == "identifier" || c.kind == "as_pattern")) }

/-- Structural rule `silent-exception` for Python (`passInExceptPython` of
src/rules/error-handling.ts): an except clause whose block body consists of
exactly one named statement, a `pass_statement`. -/
def passInExceptPython : Rule :=
  { id := "silent-exception"
    message := "Silent exception swallowing — at minimum log the error"
    note := some ("AI loves `except Exception: pass` to make code " ++ aposS ++ "robust" ++ aposS ++ ". This hides bugs.")
    languages := some ["python"]
    check := fun node _ =>
      node.kind == "except_clause" &&
      (match node.childNodes.find? (fun c => c.kind == "block") with
       | none => false
       | some body =>
         match body.childNodes.filter STree.isNamed with
         | [s] => s.kind == "pass_statement"
         | _ => false) }

/-- Structural rule `log-in-error-handler` for TypeScript/JavaScript
(`consoleLogInCatchTS` of src/rules/error-handling.ts): a catch clause
whose subtree contains a `console.log(...)` call. -/
def consoleLogInCatchTS : Rule :=
  { id := "log-in-error-handler"
    message := "console.log in catch — use console.error or a proper logger"
    note := some "AI defaults to console.log for everything, even error handling."
    languages := some ["TypeScript", "JavaScript"]
    check := fun node _ =>
      node.kind == "catch_clause" &&
      node.findAllConsoleLog.length != 0 }

/-- Structural rule `empty-error-handler` for Ruby (`emptyRescueRuby` of the
current error-handling module, src/unnamed/part_001): a rescue with no
`then` child, or whose `then` child has zero named children. -/
def emptyRescueRuby : Rule :=
  { id := "empty-error-handler"
    message := "Empty rescue block silently swallows errors"
    note := some ("At minimum, log the error or add a comment explaining why it" ++ aposS ++ "s safe to ignore.")
    languages := some ["ruby"]
    check := fun node _ =>
      node.kind == "rescue" &&
      (match node.childNodes.find? (fun c => c.kind == "then") with
       | none => true
       | some thenNode =>
         (thenNode.childNodes.filter STree.isNamed).length == 0) }

/-- The `errorHandlingRules` list of src/rules/error-handling.ts, in source
order. -/
def errorHandlingRules : List Rule :=
  [emptyCatchTS, emptyCatchJava, bareExceptPython, passInExceptPython,
   consoleLogInCatchTS, emptyRescueRuby]

/-- Result of `rulesForLanguage`: comment rules and the structural rules
filtered for the file's language. -/
structure RulePair : Type where
  comment : List Rule
  ast : List Rule

/-- The `rulesForLanguage` function of src/rules/index.ts: all comment
rules, and the structural rules whose `languages` list is absent or
includes the file's grammar key. -/
def rulesForLanguage (lang : LanguageConfig) : RulePair :=
  { comment := commentRules
    ast := errorHandlingRules.filter (fun r =>
      match r.languages with
      | none => true
      | some ls => ls.contains lang.lang) }

/-- A reported finding (the `Diagnostic` record of src/rules/index.ts). -/
structure Diagnostic : Type where
  rule : String
  message : String
  note : Option String
  file : String
  line : Nat
  column : Nat
  text : List Char
deriving DecidableEq, Repr

/-- The `makeDiagnostic` function of src/scanner.ts: 1-indexed line and
column from the node's 0-indexed range start, and the first line of the
node's source text. -/
def makeDiagnostic (rule : Rule) (node : STree) (filename : String) : Diagnostic :=
  { rule := rule.id
    message := rule.message
    note := rule.note
    file := filename
    line := node.lineIdx + 1
    column := node.colIdx + 1
    text := firstLine node.text }

/-- Inner rule loop of `scanSource`: one diagnostic per rule whose check
matches the node, in rule order. -/
def diagnosticsForNode (rules : List Rule) (node : STree)
    (lang : LanguageConfig) (filename : String) : List Diagnostic :=
  rules.filterMap (fun r =>
    if r.check node lang then some (makeDiagnostic r node filename) else none)

/-- The `scanSource` function of src/scanner.ts.  Parsing belongs to the
external engine; the function takes the parsed root.  Pass A visits the
nodes of every comment kind and runs the comment rules; Pass B visits the
language's structural kinds (when any structural rule applies) and runs the
filtered structural rules; the result is Pass A's diagnostics followed by
Pass B's. -/
def scanSource (root : STree) (lang : LanguageConfig) (filename : String) :
    List Diagnostic :=
  let rules := rulesForLanguage lang
  let commentDiags := lang.commentKinds.flatMap (fun kind =>
    (findAllKind root kind).flatMap (fun node =>
      diagnosticsForNode rules.comment node lang filename))
  let astDiags :=
    if rules.ast.length > 0 then
      (AST_RULE_KINDS lang.lang).flatMap (fun kind =>
        (findAllKind root kind).flatMap (fun node =>
          diagnosticsForNode rules.ast node lang filename))
    else []
  commentDiags ++ astDiags

/-- Empty statement block `\x7b\x7d` of a TypeScript catch clause: both
children are unnamed punctuation tokens. -/
def tsEmptyBlock : STree :=
  .mk "statement_block" true 0 22 "\x7b\x7d".data (clist
    [(none, .mk "\x7b" false 0 22 "\x7b".data (clist [])),
     (none, .mk "\x7d" false 0 23 "\x7d".data (clist []))])

/-- TypeScript catch clause `catch (e) \x7b\x7d` with an empty body. -/
def tsCatchEmpty : STree :=
  .mk "catch_clause" true 0 12 "catch (e) \x7b\x7d".data (clist
    [(none, .mk "catch" false 0 12 "catch".data (clist [])),
     (none, .mk "(" false 0 18 "(".data (clist [])),
     (some "parameter", .mk "identifier" true 0 19 "e".data (clist [])),
     (none, .mk ")" false 0 20 ")".data (clist [])),
     (some "body", tsEmptyBlock)])

/-- TypeScript program containing a try statement with an empty catch. -/
def tsTreeEmptyCatch : STree :=
  .mk "program" true 0 0 "try \x7b x() \x7d catch (e) \x7b\x7d".data (clist
    [(none, .mk "try_statement" true 0 0
        "try \x7b x() \x7d catch (e) \x7b\x7d".data (clist
      [(none, .mk "try" false 0 0 "try".data (clist [])),
       (some "body", .mk "statement_block" true 0 4 "\x7b x() \x7d".data
         (clist [(none, .mk "\x7b" false 0 4 "\x7b".data (clist [])),
                 (none, .mk "\x7d" false 0 10 "\x7d".data (clist []))])),
       (some "handler", tsCatchEmpty)]))])

/-- Call expression `console.error(e)`. -/
def consoleErrorCall : STree :=
  .mk "call_expression" true 0 24 "console.error(e)".data (clist
    [(some "function",
       .mk "member_expression" true 0 24 "console.error".data (clist [])),
     (some "arguments", .mk "arguments" true 0 37 "(e)".data (clist []))])

/-- Call expression `console.log(e)`. -/
def consoleLogCallNode : STree :=
  .mk "call_expression" true 1 2 "console.log(e)".data (clist
    [(some "function",
       .mk "member_expression" true 1 2 "console.log".data (clist [])),
     (some "arguments", .mk "arguments" true 1 13 "(e)".data (clist []))])

/-- TypeScript catch clause whose body consists of one statement calling
`console.error(e)`. -/
def tsCatchConsoleError : STree :=
  .mk "catch_clause" true 0 12 "catch (e) \x7b console.error(e) \x7d".data
    (clist
    [(none, .mk "catch" false 0 12 "catch".data (clist [])),
     (some "parameter", .mk "identifier" true 0 19 "e".data (clist [])),
     (some "body", .mk "statement_block" true 0 22
        "\x7b console.error(e) \x7d".data (clist
       [(none, .mk "\x7b" false 0 22 "\x7b".data (clist [])),
        (none, .mk "expression_statement" true 0 24 "console.error(e)".data
          (clist [(none, consoleErrorCall)])),
        (none, .mk "\x7d" false 0 41 "\x7d".data (clist []))]))])

/-- TypeScript program containing a try statement whose catch body logs
with `console.error`. -/
def tsTreeCatchConsoleError : STree :=
  .mk "program" true 0 0
    "try \x7b x() \x7d catch (e) \x7b console.error(e) \x7d".data (clist
    [(none, .mk "try_statement" true 0 0
        "try \x7b x() \x7d catch (e) \x7b console.error(e) \x7d".data (clist
      [(none, .mk "try" false 0 0 "try".data (clist [])),
       (some "body", .mk "statement_block" true 0 4 "\x7b x() \x7d".data
         (clist [])),
       (some "handler", tsCatchConsoleError)]))])

/-- TypeScript catch clause whose body calls both `console.log` and
`console.error` and contains a further statement. -/
def tsCatchBothLogs : STree :=
  .mk "catch_clause" true 0 12 "catch (e) \x7b ... \x7d".data (clist
    [(none, .mk "catch" false 0 12 "catch".data (clist [])),
     (some "parameter", .mk "identifier" true 0 19 "e".data (clist [])),
     (some "body", .mk "statement_block" true 0 22
        "\x7b console.log(e); console.error(e); retry(); \x7d".data (clist
       [(none, .mk "\x7b" false 0 22 "\x7b".data (clist [])),
        (none, .mk "expression_statement" true 1 2 "console.log(e);".data
          (clist [(none, consoleLogCallNode)])),
        (none, .mk "expression_statement" true 2 2 "console.error(e);".data
          (clist [(none, consoleErrorCall)])),
        (none, .mk "expression_statement" true 3 2 "retry();".data
          (clist [(none, .mk "call_expression" true 3 2 "retry()".data
            (clist [(some "function",
              .mk "identifier" true 3 2 "retry".data (clist []))]))])),
        (none, .mk "\x7d" false 4 0 "\x7d".data (clist []))]))])

/-- TypeScript program whose catch body mixes `console.log`,
`console.error` and another call. -/
def tsTreeBothLogs : STree :=
  .mk "program" true 0 0 "try ... catch ...".data (clist
    [(none, .mk "try_statement" true 0 0 "try ... catch ...".data (clist
      [(none, .mk "try" false 0 0 "try".data (clist [])),
       (some "body", .mk "statement_block" true 0 4 "\x7b x() \x7d".data
         (clist [])),
       (some "handler", tsCatchBothLogs)]))])

/-- Comment node helper: a named comment at the given 0-indexed line. -/
def commentNode (line : Nat) (text : String) : STree :=
  .mk "comment" true line 0 text.data (clist [])

/-- TypeScript program with step comments on lines 1, 5, 9 (1-indexed) and
an empty catch clause further down: used for the ordering claim. -/
def tsTreeOrdering : STree :=
  .mk "program" true 0 0 "ordering example".data (clist
    [(none, commentNode 0 "// Step 1: validate input"),
     (none, commentNode 4 "// Step 2: parse the payload"),
     (none, commentNode 8 "// Step 3: send the response"),
     (none, .mk "try_statement" true 10 0
        "try \x7b x() \x7d catch (e) \x7b\x7d".data (clist
       [(none, .mk "try" false 10 0 "try".data (clist [])),
        (some "body", .mk "statement_block" true 10 4 "\x7b x() \x7d".data
          (clist [])),
        (some "handler", .mk "catch_clause" true 10 12
           "catch (e) \x7b\x7d".data (clist
          [(none, .mk "catch" false 10 12 "catch".data (clist [])),
           (some "parameter", .mk "identifier" true 10 19 "e".data (clist [])),
           (some "body", .mk "statement_block" true 10 22 "\x7b\x7d".data
             (clist
             [(none, .mk "\x7b" false 10 22 "\x7b".data (clist [])),
              (none, .mk "\x7d" false 10 23 "\x7d".data (clist []))]))]))]))])

/-- Python bare except clause whose block body is exactly one
`pass_statement`. -/
def pyExceptBarePass : STree :=
  .mk "except_clause" true 2 0 "except:\n    pass".data (clist
    [(none, .mk "except" false 2 0 "except".data (clist [])),
     (none, .mk ":" false 2 6 ":".data (clist [])),
     (none, .mk "block" true 3 4 "pass".data (clist
       [(none, .mk "pass_statement" true 3 4 "pass".data (clist []))]))])

/-- Python module containing a try statement with a bare `except: pass`. -/
def pyTreeBarePass : STree :=
  .mk "module" true 0 0 "try: ...".data (clist
    [(none, .mk "try_statement" true 0 0 "try: ...".data (clist
      [(none, .mk "try" false 0 0 "try".data (clist [])),
       (some "body", .mk "block" true 1 4 "x()".data (clist
         [(none, .mk "expression_statement" true 1 4 "x()".data
           (clist []))])),
       (none, pyExceptBarePass)]))])

/-- Disjunction of the seven classifier pattern tests. -/
def anyCommentPattern (t : List Char) : Bool :=
  obviousTest t || narratorTest t || stepTest t || dividerTest t ||
  placeholderTest t || apologeticTest t || aiTest t

/-- Word-bounded, case-sensitive occurrence of `tok` in `t`: at some index
the token is a literal sublist, the preceding character (if any) is not a
word character, and the following character (if any) is not a word
character. -/
def occursWordBounded (t tok : List Char) : Prop :=
  ∃ i, i < t.length ∧ (t.drop i).take tok.length = tok ∧
    (i = 0 ∨ wordChar (t.getD (i - 1) ' ') = false) ∧
    wordChar (t.getD (i + tok.length) ' ') = false

theorem filterMap_ite_eq_map_filter {α β : Type} (p : α → Bool) (f : α → β) :
    ∀ l : List α,
      l.filterMap (fun a => if p a then some (f a) else none) =
        (l.filter p).map f := by
  intro l
  induction l with
  | nil => rfl
  | cons a t ih =>
    by_cases h : p a <;>
      simp [List.filterMap_cons, List.filter_cons, h, ih]

theorem litMatches_cs_iff (s : List Char) :
    ∀ t : List Char, litMatches false s t = true ↔ t.take s.length = s := by
  induction s with
  | nil => intro t; simp [litMatches]
  | cons a as ih =>
    intro t
    cases t with
    | nil => simp [litMatches]
    | cons b bs =>
      simp only [litMatches, charEq, if_neg Bool.false_ne_true,
        Bool.and_eq_true, beq_iff_eq, ih, List.length_cons, List.take_succ_cons,
        List.cons.injEq]
      constructor
      · rintro ⟨h1, h2⟩; exact ⟨h1.symm, h2⟩
      · rintro ⟨h1, h2⟩; exact ⟨h1.symm, h2⟩

/-- C1: for every comment node whose trimmed text the suppression gate
`shouldKeep` accepts (a reserved keeper marker occurs, or the language's
tool-directive recognizer matches), the scanner's comment pass emits zero
diagnostics for that node: suppression short-circuits every comment rule,
regardless of which classifier patterns the text also matches. -/
theorem claim1_suppression_precedence (node : STree) (lang : LanguageConfig)
    (filename : String) (h : shouldKeep (commentText node) lang = true) :
    diagnosticsForNode commentRules node lang filename = [] := by
  simp [diagnosticsForNode, commentRules, obviousComment, narratorComment,
    stepComment, sectionDivider, placeholderComment, apologeticComment,
    aiSpecificComment, h]

/-- Witness for C1 at the comment `// TODO: optimize later` scanned as
TypeScript. -/
theorem claim1_witness :
    diagnosticsForNode commentRules (commentNode 0 "// TODO: optimize later")
      langTypescript "test.ts" = [] :=
  claim1_suppression_precedence _ _ _ (by decide)

/-- C2: the reserved-marker test of the suppression filter holds exactly
when some fixed marker token occurs in the text case-sensitively and
word-bounded; a token occurring only in lowercase, or only embedded inside
a longer word, does not trigger the marker ground. -/
theorem claim2_keeper_marker_semantics :
    (∀ t : List Char,
      keeperTest t = true ↔ ∃ tok ∈ keeperTokens, occursWordBounded t tok) ∧
    keeperTest "we should todo this".data = false ∧
    keeperTest "my NOTEBOOK and NOTES".data = false ∧
    keeperTest "// TODO: optimize later".data = true := by
  refine ⟨?_, by decide, by decide, by decide⟩
  intro t
  simp only [keeperTest, List.any_eq_true, List.mem_range, keeperHit,
    Bool.and_eq_true, Bool.or_eq_true, beq_iff_eq, Bool.not_eq_true',
    litMatches_cs_iff, occursWordBounded, and_assoc]

/-- C3: for every comment node the comment pass emits one diagnostic per
matching rule, in rule order, each carrying that rule's identifier — rules
are evaluated independently, never collapsed to a single best match; the
comment `// Add your code here` concretely triggers both `obvious-comment`
and `ai-generated-comment`. -/
theorem claim3_multi_rule_independence :
    (∀ (node : STree) (lang : LanguageConfig) (filename : String),
      diagnosticsForNode commentRules node lang filename =
        (commentRules.filter (fun r => r.check node lang)).map
          (fun r => makeDiagnostic r node filename)) ∧
    (diagnosticsForNode commentRules (commentNode 0 "// Add your code here")
        langTypescript "test.ts").map (fun d => d.rule) =
      ["obvious-comment", "ai-generated-comment"] := by
  refine ⟨?_, by decide⟩
  intro node lang filename
  exact filterMap_ite_eq_map_filter _ _ _

/-- C4: the scanner's output is exactly the Pass-A comment diagnostics
followed by the Pass-B structural diagnostics, each pass enumerating the
nodes of each visited kind in preorder traversal order with no further
sorting; concretely, step comments on lines 1, 5 and 9 report in ascending
line order ahead of the structural diagnostic. -/
theorem claim4_ordering :
    (∀ (root : STree) (lang : LanguageConfig) (fn : String),
      scanSource root lang fn =
        (lang.commentKinds.flatMap (fun kind =>
          ((root.preorder.filter (fun n => n.kind == kind)).flatMap
            (fun node =>
              diagnosticsForNode (rulesForLanguage lang).comment node lang fn)))) ++
        (if (rulesForLanguage lang).ast.length > 0 then
          (AST_RULE_KINDS lang.lang).flatMap (fun kind =>
            ((root.preorder.filter (fun n => n.kind == kind)).flatMap
              (fun node =>
                diagnosticsForNode (rulesForLanguage lang).ast node lang fn)))
        else [])) ∧
    (scanSource tsTreeOrdering langTypescript "test.ts").map
        (fun d => (d.rule, d.line)) =
      [("step-comment", 1), ("step-comment", 5), ("step-comment", 9),
       ("empty-error-handler", 11)] := by
  exact ⟨fun root lang fn => rfl, by decide⟩

/-- C5: a structural rule whose language scope excludes the file's grammar
key is filtered out by `rulesForLanguage` and so contributes nothing to the
scan; concretely the Python bare-except variant is absent from the
TypeScript rule set, the TypeScript empty-catch variant is absent from the
Java rule set, and scanning a Python-shaped handler tree as TypeScript
yields no diagnostics. -/
theorem claim5_language_isolation :
    (∀ (lang : LanguageConfig) (r : Rule) (ls : List String),
      r ∈ (rulesForLanguage lang).ast → r.languages = some ls →
      lang.lang ∈ ls) ∧
    (rulesForLanguage langTypescript).ast = [emptyCatchTS, consoleLogInCatchTS] ∧
    (rulesForLanguage langJava).ast = [emptyCatchJava] ∧
    (rulesForLanguage langPython).ast = [bareExceptPython, passInExceptPython] ∧
    scanSource pyTreeBarePass langTypescript "test.ts" = [] := by
  refine ⟨?_, rfl, rfl, rfl, by decide⟩
  intro lang r ls hmem hlang
  have h := List.mem_filter.mp hmem
  have h2 := h.2
  rw [hlang] at h2
  exact List.elem_iff.mp h2

/-- Witness for C5: the TypeScript empty-catch variant survives the filter
for TypeScript because its language scope lists that grammar key. -/
theorem claim5_witness : ("TypeScript" : String) ∈ ["TypeScript", "JavaScript"] :=
  claim5_language_isolation.1 langTypescript emptyCatchTS
    ["TypeScript", "JavaScript"] (List.Mem.head _) rfl

/-- C6: for TypeScript and JavaScript, a catch clause with an empty body
yields exactly one diagnostic, whose rule identifier is
`empty-error-handler`, and the same clause whose body is a single
`console.error(e)` statement yields zero diagnostics. -/
theorem claim6_empty_catch_vs_console_error :
    scanSource tsTreeEmptyCatch langTypescript "test.ts" =
      [makeDiagnostic emptyCatchTS tsCatchEmpty "test.ts"] ∧
    (makeDiagnostic emptyCatchTS tsCatchEmpty "test.ts").rule =
      "empty-error-handler" ∧
    scanSource tsTreeCatchConsoleError langTypescript "test.ts" = [] ∧
    scanSource tsTreeEmptyCatch langJavascript "test.js" =
      [makeDiagnostic emptyCatchTS tsCatchEmpty "test.js"] ∧
    scanSource tsTreeCatchConsoleError langJavascript "test.js" = [] :=
  ⟨by decide, rfl, by decide, by decide, by decide⟩

theorem commentPatternsAllFail (node : STree) (lang : LanguageConfig)
    (fn : String) (h : anyCommentPattern (commentText node) = false) :
    diagnosticsForNode commentRules node lang fn = [] := by
  simp only [anyCommentPattern, Bool.or_eq_false_iff] at h
  obtain ⟨⟨⟨⟨⟨⟨h1, h2⟩, h3⟩, h4⟩, h5⟩, h6⟩, h7⟩ := h
  simp [diagnosticsForNode, commentRules, obviousComment, narratorComment,
    stepComment, sectionDivider, placeholderComment, apologeticComment,
    aiSpecificComment, h1, h2, h3, h4, h5, h6, h7]

/-- C7: a comment node whose trimmed text is empty or consists of a bare
comment delimiter (with any surrounding whitespace removed by trimming)
matches no classifier pattern, so the comment pass emits no diagnostic for
it. -/
theorem claim7_blank_comment_unflagged (node : STree) (lang : LanguageConfig)
    (fn : String)
    (h : commentText node = [] ∨ commentText node = "//".data ∨
      commentText node = "#".data ∨ commentText node = "/*".data ∨
      commentText node = "/**".data) :
    diagnosticsForNode commentRules node lang fn = [] := by
  apply commentPatternsAllFail
  rcases h with h | h | h | h | h <;> rw [h] <;> decide

/-- Witness for C7 at a comment whose text is `//` plus trailing spaces. -/
theorem claim7_witness :
    diagnosticsForNode commentRules (commentNode 0 "//   ") langTypescript
      "test.ts" = [] :=
  claim7_blank_comment_unflagged _ _ _ (Or.inr (Or.inl (by decide)))

/-- C8: every diagnostic the scanner returns is positioned at some visited
node's 0-indexed range start plus one (1-indexed line and column), and its
text is the first line of that node's source text. -/
theorem claim8_diagnostic_positions (root : STree) (lang : LanguageConfig)
    (fn : String) (d : Diagnostic) (hd : d ∈ scanSource root lang fn) :
    ∃ node ∈ root.preorder, d.line = node.lineIdx + 1 ∧
      d.column = node.colIdx + 1 ∧ d.text = firstLine node.text := by
  have key : ∀ (rs : List Rule) (node : STree),
      d ∈ diagnosticsForNode rs node lang fn →
      d.line = node.lineIdx + 1 ∧ d.column = node.colIdx + 1 ∧
        d.text = firstLine node.text := by
    intro rs node hmem
    simp only [diagnosticsForNode, List.mem_filterMap] at hmem
    obtain ⟨r, _, hr⟩ := hmem
    split at hr
    · have hmk := Option.some.inj hr
      subst hmk
      exact ⟨rfl, rfl, rfl⟩
    · exact absurd hr (by simp)
  rcases List.mem_append.mp hd with hA | hB
  · obtain ⟨kind, _, hk⟩ := List.mem_flatMap.mp hA
    obtain ⟨node, hn, hmem⟩ := List.mem_flatMap.mp hk
    exact ⟨node, (List.mem_filter.mp hn).1, key _ _ hmem⟩
  · by_cases hc : (rulesForLanguage lang).ast.length > 0
    · rw [if_pos hc] at hB
      obtain ⟨kind, _, hk⟩ := List.mem_flatMap.mp hB
      obtain ⟨node, hn, hmem⟩ := List.mem_flatMap.mp hk
      exact ⟨node, (List.mem_filter.mp hn).1, key _ _ hmem⟩
    · rw [if_neg hc] at hB
      exact absurd hB (by simp)

/-- Witness for C8 at the empty-catch diagnostic of the concrete
TypeScript tree. -/
theorem claim8_witness :
    ∃ node ∈ tsTreeEmptyCatch.preorder,
      (makeDiagnostic emptyCatchTS tsCatchEmpty "test.ts").line =
        node.lineIdx + 1 ∧
      (makeDiagnostic emptyCatchTS tsCatchEmpty "test.ts").column =
        node.colIdx + 1 ∧
      (makeDiagnostic emptyCatchTS tsCatchEmpty "test.ts").text =
        firstLine node.text :=
  claim8_diagnostic_positions tsTreeEmptyCatch langTypescript "test.ts" _
    (by decide)

/-- C9: a bare Python except clause (no `identifier` or `as_pattern` child)
whose block body is exactly one named `pass_statement` triggers both the
`empty-error-handler` variant and the `silent-exception` rule on the same
node — the two categories are not mutually exclusive for Python. -/
theorem claim9_bare_except_pass_double (node b p : STree) (fn : String)
    (h1 : node.kind = "except_clause")
    (h2 : node.childNodes.any (fun c =>
        c.kind == "identifier" || c.kind == "as_pattern") = false)
    (h3 : node.childNodes.find? (fun c => c.kind == "block") = some b)
    (h4 : b.childNodes.filter STree.isNamed = [p])
    (h5 : p.kind = "pass_statement") :
    (diagnosticsForNode (rulesForLanguage langPython).ast node langPython
        fn).map (fun d => d.rule) =
      ["empty-error-handler", "silent-exception"] := by
  have hast : (rulesForLanguage langPython).ast =
      [bareExceptPython, passInExceptPython] := rfl
  rw [hast]
  simp [diagnosticsForNode, bareExceptPython, passInExceptPython, h1, h2,
    h3, h4, h5, makeDiagnostic]

/-- Witness for C9 at the concrete `except: pass` clause. -/
theorem claim9_witness :
    (diagnosticsForNode (rulesForLanguage langPython).ast pyExceptBarePass
        langPython "test.py").map (fun d => d.rule) =
      ["empty-error-handler", "silent-exception"] :=
  claim9_bare_except_pass_double pyExceptBarePass
    (.mk "block" true 3 4 "pass".data (clist
      [(none, .mk "pass_statement" true 3 4 "pass".data (clist []))]))
    (.mk "pass_statement" true 3 4 "pass".data (clist []))
    "test.py" rfl rfl rfl rfl rfl

/-- C10: the `log-in-error-handler` rule fires for a catch clause as soon
as one `console.log(...)` call occurs anywhere in the clause's subtree,
whatever else the body holds; concretely, a catch body calling both
`console.log` and `console.error` plus a further statement still yields
exactly the `log-in-error-handler` diagnostic. -/
theorem claim10_console_log_anywhere :
    (∀ (node : STree) (lang : LanguageConfig),
      node.kind = "catch_clause" →
      node.preorder.any isConsoleLogCall = true →
      consoleLogInCatchTS.check node lang = true) ∧
    (diagnosticsForNode (rulesForLanguage langTypescript).ast tsCatchBothLogs
        langTypescript "test.ts").map (fun d => d.rule) =
      ["log-in-error-handler"] := by
  refine ⟨?_, by decide⟩
  intro node lang h1 h2
  obtain ⟨x, hx, hpx⟩ := List.any_eq_true.mp h2
  simp [consoleLogInCatchTS, STree.findAllConsoleLog, h1, bne_iff_ne,
    List.length_eq_zero]
  exact ⟨x, hx, hpx⟩

/-- Witness for C10 at the catch clause mixing both logging calls. -/
theorem claim10_witness :
    consoleLogInCatchTS.check tsCatchBothLogs langTypescript = true :=
  claim10_console_log_anywhere.1 tsCatchBothLogs langTypescript rfl
    (by decide)

end Sloplint
